import Mathlib

/-!
Shallow embedding of the CI utilities of the `rust-utils` crate
(`src/ci.rs`, `src/xtasks.rs`).

Modelling conventions:
- `std::process` output is a record of captured stdout, captured stderr and
  the success flag of the exit status; a failed launch (the `unwrap_or_else`
  panic branch of `execute_command`) is represented by passing `none` for the
  launch result.
- `tracing` events are collected into an explicit list of records, each a
  level (`info` or `error`) paired with a structured message mirroring the
  exact format string of the source. Spans only affect log rendering and are
  not modelled.
- The filesystem is an explicit association list from paths to contents plus
  a list of read-only paths; `fs::read_to_string` fails when the path is
  absent, `fs::write` fails when the path is read-only.
- A path carries its display string and the result of `Path::extension()`
  (absent, non-UTF-8, or a UTF-8 string), since the OS path machinery is
  external library code.
- The external formatting engines (the `taplo` and `pretty_yaml` crates) are
  black boxes per the source; they are parameters: a total TOML formatter and
  a fallible YAML formatter, mirroring the types at the call sites in
  `FormatType::format`.
-/

/-- Logging level of a `tracing` event (only the two levels the code emits). -/
inductive Level where
  | info
  | error
deriving DecidableEq, Repr

/-- Structured log messages, one constructor per format string in the source.
Each carries the `display()` rendering of the path where the source
interpolates one. -/
inductive LogMsg where
  /-- The single record built by `execute_command` from the description and
  the captured streams. -/
  | combined (record : String)
  /-- The literal record `Failed` emitted by `execute_command` on a
  non-zero exit status. -/
  | failedMarker
  /-- From `FormatType::parse`: the path does not have a file extension. -/
  | noExtension (path : String)
  /-- From `FormatType::parse`: the path does not have a UTF-8 file
  extension. -/
  | nonUtf8Extension (path : String)
  /-- From `FormatType::parse`: the extension of the path is not a supported
  file extension. -/
  | unsupportedExtension (path : String)
  /-- From `format_files`: could not read the contents of the path. -/
  | readError (path : String)
  /-- From `format_files`: could not format the contents of the path
  (wrapping the parse error of the engine). -/
  | formatError (path : String)
  /-- From `format_files`: could not overwrite the path with its reformatted
  version. -/
  | writeError (path : String)
  /-- From `format_files`: the path was not formatted correctly and has been
  formatted. -/
  | drift (path : String)
  /-- From `format_files`: all the files are formatted correctly. -/
  | allFormatted
deriving DecidableEq, Repr

/-- A `tracing` event: a level together with its message. -/
abbrev LogRecord := Level × LogMsg

/-- Captured result of a launched process (`std::process::Output`): the two
streams decoded as text and `status.success()`. -/
structure Output where
  stdout : String
  stderr : String
  success : Bool
deriving DecidableEq, Repr

/-- Result of `execute_command`: either the process could not be launched at
all and the function panicked, or it ran and the function returned
`Some(())` (exit status zero) or `None` (non-zero). -/
inductive ExecOutcome where
  | panicked
  | ok
  | failed
deriving DecidableEq, Repr

/-- Embedding of `execute_command` (`src/ci.rs` lines 21 to 41). `launch` is
the result of `command.output()`: `none` models the error branch whose
`unwrap_or_else` panics. The returned list holds the emitted log records in
order. -/
def execute_command (launch : Option Output) (description : String) :
    ExecOutcome × List LogRecord :=
  match launch with
  | none => (ExecOutcome.panicked, [])
  | some output =>
    let log1 := description
    let log2 :=
      if output.stdout.isEmpty then log1 else log1 ++ "\n" ++ output.stdout
    let log3 :=
      if output.stderr.isEmpty then log2 else log2 ++ "\n" ++ output.stderr
    if output.success then
      (ExecOutcome.ok, [(Level.info, LogMsg.combined log3)])
    else
      (ExecOutcome.failed,
        [(Level.info, LogMsg.combined log3), (Level.error, LogMsg.failedMarker)])

/-- Result of `Path::extension()` when an extension is present: a UTF-8
string, or bytes that are not valid UTF-8 (`to_str` returns `None`). -/
inductive ExtResult where
  | utf8 (s : String)
  | nonUtf8
deriving DecidableEq, Repr

/-- A file path as `format_files` observes it: its `display()` rendering and
its `extension()`. -/
structure FilePath where
  display : String
  extension : Option ExtResult
deriving DecidableEq, Repr

/-- The two supported file types (`FormatType` in `src/ci.rs`). -/
inductive FormatType where
  | Toml
  | Yaml
deriving DecidableEq, Repr

/-- Embedding of `FormatType::parse` (`src/ci.rs` lines 107 to 128). The
error value is the structured form of the `anyhow!` message. -/
def FormatType.parse (p : FilePath) : Except LogMsg FormatType :=
  match p.extension with
  | none => Except.error (LogMsg.noExtension p.display)
  | some ExtResult.nonUtf8 => Except.error (LogMsg.nonUtf8Extension p.display)
  | some (ExtResult.utf8 ext) =>
    if ext = "toml" then Except.ok FormatType.Toml
    else if ext = "yaml" ∨ ext = "yml" then Except.ok FormatType.Yaml
    else Except.error (LogMsg.unsupportedExtension p.display)

/-- The external formatting engines, as typed at the call sites in
`FormatType::format`: `taplo::formatter::format` (with the reordering
options) is total, `pretty_yaml::format_text` is fallible with an error
message. -/
structure Formatters where
  toml : String → String
  yaml : String → Except String String

/-- Embedding of `FormatType::format` (`src/ci.rs` lines 134 to 153): the
TOML arm wraps the engine output in `Ok` unconditionally; the YAML arm
propagates the engine result (the `context` call only decorates the error
message, which the log model keeps structural). -/
def FormatType.format (t : FormatType) (fmts : Formatters)
    (file_contents : String) : Except String String :=
  match t with
  | FormatType.Toml => Except.ok (fmts.toml file_contents)
  | FormatType.Yaml => fmts.yaml file_contents

/-- The filesystem state: files with their contents, plus the paths on which
a write fails. -/
structure FS where
  files : List (FilePath × String)
  readOnly : List FilePath
deriving DecidableEq, Repr

/-- `fs::read_to_string`: fails (returns `none`) when the path is absent. -/
def FS.read (fs : FS) (p : FilePath) : Option String :=
  (fs.files.find? (fun e => e.1 == p)).map (fun e => e.2)

/-- `fs::write`: fails on a read-only path, otherwise replaces the contents
stored at the path (creating the entry if absent). -/
def FS.write (fs : FS) (p : FilePath) (s : String) : Option FS :=
  if p ∈ fs.readOnly then none
  else some { fs with files := (p, s) :: fs.files.filter (fun e => !(e.1 == p)) }

/-- Embedding of `format_files` (`src/ci.rs` lines 46 to 94). Returns the
final filesystem, the emitted log records in order, and the `Option<()>`
result. Every `.ok()?` early return of the loop becomes an error case here;
on a successful pass over a file the loop emits no record and continues. -/
def format_files (fmts : Formatters) (fs : FS) :
    List FilePath → FS × List LogRecord × Option Unit
  | [] => (fs, [(Level.info, LogMsg.allFormatted)], some ())
  | p :: rest =>
    match FormatType.parse p with
    | Except.error e => (fs, [(Level.error, e)], none)
    | Except.ok file_type =>
      match fs.read p with
      | none => (fs, [(Level.error, LogMsg.readError p.display)], none)
      | some file_contents =>
        match file_type.format fmts file_contents with
        | Except.error _ =>
          (fs, [(Level.error, LogMsg.formatError p.display)], none)
        | Except.ok formatted =>
          if formatted = file_contents then
            format_files fmts fs rest
          else
            match fs.write p formatted with
            | none => (fs, [(Level.error, LogMsg.writeError p.display)], none)
            | some fs2 =>
              (fs2, [(Level.error, LogMsg.drift p.display)], none)

/-- Embedding of the generic short-circuiting step chaining of
`run_ci_pipeline` and `run_ci_pipeline_rust_utils` (`src/xtasks.rs`): each
step is its `Option<()>` outcome, chained with `?`. Returns the list of
steps that actually executed, in order, together with the overall result. -/
def run_ci_pipeline (steps : List (Option Unit)) :
    List (Option Unit) × Option Unit :=
  match steps with
  | [] => ([], some ())
  | s :: rest =>
    match s with
    | none => ([none], none)
    | some () =>
      let r := run_ci_pipeline rest
      (some () :: r.1, r.2)

/-- Embedding of `run_ci_pipeline_rust_utils` (`src/xtasks.rs` lines 37 to
62), parameterised by the outcome of each of its four `execute_command`
invocations, chained exactly as the `?` operators chain them. -/
def run_ci_pipeline_rust_utils (clippy docsPublic docsPrivate fmtCheck :
    Option Unit) : Option Unit :=
  match clippy with
  | none => none
  | some () =>
    match docsPublic with
    | none => none
    | some () =>
      match docsPrivate with
      | none => none
      | some () => fmtCheck

/-- Specification predicate: processing the path succeeds without any drift
(its type resolves, its contents read, formatting succeeds and returns the
contents unchanged), so the `format_files` loop moves on to the next path. -/
def processClean (fmts : Formatters) (fs : FS) (p : FilePath) : Bool :=
  match FormatType.parse p with
  | Except.error _ => false
  | Except.ok file_type =>
    match fs.read p with
    | none => false
    | some file_contents =>
      match file_type.format fmts file_contents with
      | Except.error _ => false
      | Except.ok formatted => formatted == file_contents

/-- Specification predicate: the path has a missing, non-UTF-8 or
unrecognised extension. -/
def badExtension (p : FilePath) : Bool :=
  match p.extension with
  | none => true
  | some ExtResult.nonUtf8 => true
  | some (ExtResult.utf8 ext) =>
    !(ext == "toml" || ext == "yaml" || ext == "yml")

/-- The structured message `FormatType::parse` reports for a path with a
missing, non-UTF-8 or unsupported extension. -/
def extensionErrMsg (p : FilePath) : LogMsg :=
  match p.extension with
  | none => LogMsg.noExtension p.display
  | some ExtResult.nonUtf8 => LogMsg.nonUtf8Extension p.display
  | some (ExtResult.utf8 _) => LogMsg.unsupportedExtension p.display

/-- Helper: the `format_files` loop passes over a clean path without
changing the state or logging anything. -/
theorem format_files_clean_cons (fmts : Formatters) (fs : FS) (q : FilePath)
    (paths : List FilePath) (h : processClean fmts fs q = true) :
    format_files fmts fs (q :: paths) = format_files fmts fs paths := by
  cases hp : FormatType.parse q with
  | error e => simp only [processClean, hp] at h; exact absurd h (by decide)
  | ok t =>
    cases hr : FS.read fs q with
    | none => simp only [processClean, hp, hr] at h; exact absurd h (by decide)
    | some x =>
      cases hf : FormatType.format t fmts x with
      | error e => simp only [processClean, hp, hr, hf] at h; exact absurd h (by decide)
      | ok y =>
        simp only [processClean, hp, hr, hf, beq_iff_eq] at h
        subst h
        simp [format_files, hp, hr, hf]

/-- Helper: the loop passes over any prefix of clean paths unchanged. -/
theorem format_files_skip_clean_front (fmts : Formatters) (fs : FS)
    (pre rest : List FilePath)
    (h : ∀ q ∈ pre, processClean fmts fs q = true) :
    format_files fmts fs (pre ++ rest) = format_files fmts fs rest := by
  induction pre with
  | nil => rfl
  | cons q pre ih =>
    rw [List.cons_append,
      format_files_clean_cons fmts fs q (pre ++ rest)
        (h q (List.mem_cons_self q pre))]
    exact ih (fun p hp => h p (List.mem_cons_of_mem q hp))

/-- C4: if every path in the input sequence resolves, reads, and formats to
itself (`format(x) == x`), then `format_files` performs no filesystem write
(the whole filesystem state is returned unchanged, so every file stays
byte-identical on disk), logs the single success record, and returns overall
pass. The empty path sequence is the vacuous instance. -/
theorem format_files_all_clean_passes (fmts : Formatters) (fs : FS)
    (paths : List FilePath)
    (h : ∀ p ∈ paths, processClean fmts fs p = true) :
    format_files fmts fs paths =
      (fs, [(Level.info, LogMsg.allFormatted)], some ()) := by
  have hp := format_files_skip_clean_front fmts fs paths [] h
  rw [List.append_nil] at hp
  rw [hp]
  rfl

/-- C4 witness: a filesystem with one already-canonical TOML file passes and
is returned unchanged, and the empty sequence trivially passes. -/
theorem format_files_all_clean_passes_witness :
    format_files ⟨fun s => s, fun s => Except.ok s⟩
      ⟨[(⟨"Cargo.toml", some (ExtResult.utf8 "toml")⟩, "a = 1")], []⟩
      [⟨"Cargo.toml", some (ExtResult.utf8 "toml")⟩] =
      (⟨[(⟨"Cargo.toml", some (ExtResult.utf8 "toml")⟩, "a = 1")], []⟩,
        [(Level.info, LogMsg.allFormatted)], some ()) ∧
    format_files ⟨fun s => s, fun s => Except.ok s⟩ ⟨[], []⟩ [] =
      (⟨[], []⟩, [(Level.info, LogMsg.allFormatted)], some ()) :=
  ⟨format_files_all_clean_passes _ _ _ (by decide),
   format_files_all_clean_passes _ _ _ (by decide)⟩

/-- C1: for the first path reached whose content drifts (every earlier path
processes cleanly; this one resolves, reads content `x`, and formats to
`y ≠ x` with the path writable), `format_files` overwrites the file on disk
with the formatted text, logs the drift error, and returns overall fail
immediately: the outcome is the same for every list of later paths, so none
of them is processed. -/
theorem format_files_drift_overwrites_and_fails
    (fmts : Formatters) (fs : FS) (pre : List FilePath) (p : FilePath)
    (t : FormatType) (x y : String)
    (hpre : ∀ q ∈ pre, processClean fmts fs q = true)
    (hparse : FormatType.parse p = Except.ok t)
    (hread : FS.read fs p = some x)
    (hfmt : FormatType.format t fmts x = Except.ok y)
    (hdrift : y ≠ x)
    (hwrite : p ∉ fs.readOnly) :
    ∀ post : List FilePath, ∃ fs2 : FS,
      FS.write fs p y = some fs2 ∧
      FS.read fs2 p = some y ∧
      format_files fmts fs (pre ++ p :: post) =
        (fs2, [(Level.error, LogMsg.drift p.display)], none) := by
  intro post
  refine ⟨{ fs with
      files := (p, y) :: fs.files.filter (fun e => !(e.1 == p)) }, ?_, ?_, ?_⟩
  · simp [FS.write, hwrite]
  · simp [FS.read, List.find?]
  · rw [format_files_skip_clean_front fmts fs pre _ hpre]
    simp [format_files, hparse, hread, hfmt, hdrift, FS.write, hwrite]

/-- C1 witness: a TOML file whose engine output differs from its contents is
overwritten with the formatted text, the drift error is logged, the run
fails, and the later YAML path in the sequence is never processed. -/
theorem format_files_drift_overwrites_and_fails_witness :
    ∃ fs2 : FS,
      FS.write ⟨[(⟨"Cargo.toml", some (ExtResult.utf8 "toml")⟩, "b = 2")], []⟩
          ⟨"Cargo.toml", some (ExtResult.utf8 "toml")⟩ "a = 1" = some fs2 ∧
      FS.read fs2 ⟨"Cargo.toml", some (ExtResult.utf8 "toml")⟩ = some "a = 1" ∧
      format_files ⟨fun _ => "a = 1", fun s => Except.ok s⟩
          ⟨[(⟨"Cargo.toml", some (ExtResult.utf8 "toml")⟩, "b = 2")], []⟩
          [⟨"Cargo.toml", some (ExtResult.utf8 "toml")⟩,
            ⟨"ci.yml", some (ExtResult.utf8 "yml")⟩] =
        (fs2, [(Level.error, LogMsg.drift "Cargo.toml")], none) :=
  format_files_drift_overwrites_and_fails
    ⟨fun _ => "a = 1", fun s => Except.ok s⟩
    ⟨[(⟨"Cargo.toml", some (ExtResult.utf8 "toml")⟩, "b = 2")], []⟩
    [] ⟨"Cargo.toml", some (ExtResult.utf8 "toml")⟩
    FormatType.Toml "b = 2" "a = 1"
    (by decide) rfl rfl rfl (by decide) (by decide)
    [⟨"ci.yml", some (ExtResult.utf8 "yml")⟩]

/-- C6: when the first path reached by the loop has a missing, non-UTF-8 or
unrecognised extension, `FormatType.parse` fails with the corresponding
error, and `format_files` fails the whole run with that error logged, the
filesystem returned unchanged (no write), and the same outcome for every
list of later paths, so they are all skipped. -/
theorem format_files_bad_extension_fails
    (fmts : Formatters) (fs : FS) (pre : List FilePath) (p : FilePath)
    (hpre : ∀ q ∈ pre, processClean fmts fs q = true)
    (hbad : badExtension p = true) :
    FormatType.parse p = Except.error (extensionErrMsg p) ∧
    ∀ post : List FilePath,
      format_files fmts fs (pre ++ p :: post) =
        (fs, [(Level.error, extensionErrMsg p)], none) := by
  have hparse : FormatType.parse p = Except.error (extensionErrMsg p) := by
    cases hext : p.extension with
    | none => simp [FormatType.parse, extensionErrMsg, hext]
    | some er =>
      cases er with
      | nonUtf8 => simp [FormatType.parse, extensionErrMsg, hext]
      | utf8 ext =>
        simp only [badExtension, hext, Bool.not_eq_true', Bool.or_eq_false_iff,
          beq_eq_false_iff_ne, ne_eq] at hbad
        obtain ⟨⟨h1, h2⟩, h3⟩ := hbad
        simp [FormatType.parse, extensionErrMsg, hext, h1, h2, h3]
  refine ⟨hparse, fun post => ?_⟩
  rw [format_files_skip_clean_front fmts fs pre _ hpre]
  simp [format_files, hparse]

/-- C6 witness: a path with no extension makes the run fail with the
missing-extension error, leaves the (nonempty) filesystem unchanged, and a
later well-formed path is skipped. -/
theorem format_files_bad_extension_fails_witness :
    FormatType.parse ⟨"README", none⟩ =
      Except.error (LogMsg.noExtension "README") ∧
    format_files ⟨fun s => s, fun s => Except.ok s⟩
        ⟨[(⟨"Cargo.toml", some (ExtResult.utf8 "toml")⟩, "a = 1")], []⟩
        [⟨"README", none⟩, ⟨"Cargo.toml", some (ExtResult.utf8 "toml")⟩] =
      (⟨[(⟨"Cargo.toml", some (ExtResult.utf8 "toml")⟩, "a = 1")], []⟩,
        [(Level.error, LogMsg.noExtension "README")], none) := by
  have h := format_files_bad_extension_fails
    ⟨fun s => s, fun s => Except.ok s⟩
    ⟨[(⟨"Cargo.toml", some (ExtResult.utf8 "toml")⟩, "a = 1")], []⟩
    [] ⟨"README", none⟩ (by decide) (by decide)
  exact ⟨h.1, h.2 [⟨"Cargo.toml", some (ExtResult.utf8 "toml")⟩]⟩

/-- C7: when the first path reached by the loop resolves to YAML, its
contents read, and the YAML engine fails to parse them, `format_files`
returns the filesystem unchanged (no write occurs), logs the format-error
reason — a message distinct from the drift reason — and returns overall
fail, with the same outcome for every list of later paths. -/
theorem format_files_yaml_parse_error_fails
    (fmts : Formatters) (fs : FS) (pre : List FilePath) (p : FilePath)
    (x msg : String)
    (hpre : ∀ q ∈ pre, processClean fmts fs q = true)
    (hparse : FormatType.parse p = Except.ok FormatType.Yaml)
    (hread : FS.read fs p = some x)
    (hyaml : fmts.yaml x = Except.error msg) :
    (∀ d : String, LogMsg.formatError p.display ≠ LogMsg.drift d) ∧
    ∀ post : List FilePath,
      format_files fmts fs (pre ++ p :: post) =
        (fs, [(Level.error, LogMsg.formatError p.display)], none) := by
  refine ⟨fun d => by simp, fun post => ?_⟩
  rw [format_files_skip_clean_front fmts fs pre _ hpre]
  simp [format_files, hparse, hread, FormatType.format, hyaml]

/-- C7 witness: a YAML file whose contents the engine rejects makes the run
fail with the format-error record, the file is not written, and the logged
reason differs from the drift reason for the same path. -/
theorem format_files_yaml_parse_error_fails_witness :
    LogMsg.formatError "ci.yml" ≠ LogMsg.drift "ci.yml" ∧
    format_files ⟨fun s => s, fun _ => Except.error "unterminated mapping"⟩
        ⟨[(⟨"ci.yml", some (ExtResult.utf8 "yml")⟩, "x: [")], []⟩
        [⟨"ci.yml", some (ExtResult.utf8 "yml")⟩] =
      (⟨[(⟨"ci.yml", some (ExtResult.utf8 "yml")⟩, "x: [")], []⟩,
        [(Level.error, LogMsg.formatError "ci.yml")], none) := by
  have h := format_files_yaml_parse_error_fails
    ⟨fun s => s, fun _ => Except.error "unterminated mapping"⟩
    ⟨[(⟨"ci.yml", some (ExtResult.utf8 "yml")⟩, "x: [")], []⟩
    [] ⟨"ci.yml", some (ExtResult.utf8 "yml")⟩
    "x: [" "unterminated mapping" (by decide) rfl rfl rfl
  exact ⟨h.1 "ci.yml", h.2 []⟩

/-- C3: the step chaining of the pipeline executes steps strictly in order
and short-circuits. If every step passes, every step executes exactly once
in order and the run passes; if the steps are a clean prefix followed by a
failing step, exactly that prefix plus the failing step execute and the run
fails, independently of the later steps. The concrete four-step chain of
`run_ci_pipeline_rust_utils` coincides with the generic chaining of its four
step outcomes. -/
theorem run_ci_pipeline_short_circuit :
    (∀ steps : List (Option Unit), (∀ s ∈ steps, s = some ()) →
      run_ci_pipeline steps = (steps, some ())) ∧
    (∀ pre post : List (Option Unit), (∀ s ∈ pre, s = some ()) →
      run_ci_pipeline (pre ++ none :: post) = (pre ++ [none], none)) ∧
    (∀ clippy docsPublic docsPrivate fmtCheck : Option Unit,
      run_ci_pipeline_rust_utils clippy docsPublic docsPrivate fmtCheck =
        (run_ci_pipeline [clippy, docsPublic, docsPrivate, fmtCheck]).2) := by
  refine ⟨?_, ?_, ?_⟩
  · intro steps h
    induction steps with
    | nil => rfl
    | cons s rest ih =>
      have hs := h s (List.mem_cons_self s rest)
      subst hs
      simp [run_ci_pipeline, ih (fun q hq => h q (List.mem_cons_of_mem _ hq))]
  · intro pre post h
    induction pre with
    | nil => rfl
    | cons s pre ih =>
      have hs := h s (List.mem_cons_self s pre)
      subst hs
      simp [run_ci_pipeline,
        ih (fun q hq => h q (List.mem_cons_of_mem _ hq))]
  · intro clippy docsPublic docsPrivate fmtCheck
    cases clippy with
    | none => rfl
    | some u =>
      cases u
      cases docsPublic with
      | none => rfl
      | some u =>
        cases u
        cases docsPrivate with
        | none => rfl
        | some u =>
          cases u
          cases fmtCheck with
          | none => rfl
          | some u => cases u; rfl

/-- C3 witness: the sequence pass, pass, fail, pass executes exactly the
first three steps and fails overall; a sequence of two passing steps
executes both and passes overall. -/
theorem run_ci_pipeline_short_circuit_witness :
    run_ci_pipeline [some (), some (), none, some ()] =
      ([some (), some (), none], none) ∧
    run_ci_pipeline [some (), some ()] =
      ([some (), some ()], some ()) :=
  ⟨run_ci_pipeline_short_circuit.2.1 [some (), some ()] [some ()] (by decide),
   run_ci_pipeline_short_circuit.1 [some (), some ()] (by decide)⟩

/-- C2 counterexample: for a command that exits non-zero with stderr `boom`,
the combined record (description plus stderr) is logged at informational
level, not at error level as the claim states; the record emitted at error
level is the separate literal `Failed` marker. -/
theorem execute_command_error_level_counterexample :
    (execute_command (some (Output.mk "" "boom" false)) "Checking.").1 =
      ExecOutcome.failed ∧
    (Level.info, LogMsg.combined ("Checking." ++ "\n" ++ "boom")) ∈
      (execute_command (some (Output.mk "" "boom" false)) "Checking.").2 ∧
    (Level.error, LogMsg.combined ("Checking." ++ "\n" ++ "boom")) ∉
      (execute_command (some (Output.mk "" "boom" false)) "Checking.").2 := by
  decide

/-- C2 amended: `execute_command` logs the single combined record — the
description, with captured stdout and stderr each appended only when
non-empty and each preceded by its own line break — always at informational
level; when the exit status is non-zero it additionally logs the separate
record `Failed` at error level and returns `Failure` (`None`). -/
theorem execute_command_logging (d : String) (out : Output) :
    (execute_command (some out) d).2 =
      (Level.info, LogMsg.combined
        ((if out.stdout.isEmpty then d else d ++ "\n" ++ out.stdout) ++
          (if out.stderr.isEmpty then "" else "\n" ++ out.stderr))) ::
        (if out.success then []
          else [(Level.error, LogMsg.failedMarker)]) ∧
    (execute_command (some out) d).1 =
      (if out.success then ExecOutcome.ok else ExecOutcome.failed) := by
  unfold execute_command
  by_cases h1 : out.stdout.isEmpty <;> by_cases h2 : out.stderr.isEmpty <;>
    cases hs : out.success <;>
      simp [h1, h2, hs, String.append_assoc]

/-- C8: when the command cannot be launched at all, `execute_command`
panics (the `panicked` outcome, with no log emitted), while a launched
command always yields the normal `ok` or `failed` step result — never the
panic — so a mere non-zero exit is not an abort. -/
theorem execute_command_launch_failure_panics (d : String) :
    execute_command none d = (ExecOutcome.panicked, []) ∧
    (∀ out : Output, (execute_command (some out) d).1 =
      (if out.success then ExecOutcome.ok else ExecOutcome.failed)) := by
  refine ⟨rfl, fun out => ?_⟩
  unfold execute_command
  cases hs : out.success <;> simp [hs]

/-- C9: the TOML arm of `FormatType::format` wraps the engine output in `Ok`
unconditionally, so formatting succeeds for every input string and every
TOML engine — a TOML file can never produce the format-error branch. -/
theorem toml_format_never_fails (fmts : Formatters) (s : String) :
    FormatType.format FormatType.Toml fmts s = Except.ok (fmts.toml s) := rfl

/-- C10: extension matching in `FormatType::parse` is exact and
case-sensitive: the literal lowercase extensions `toml`, `yaml` and `yml`
resolve to their file types, and every other UTF-8 extension string yields
the unsupported-extension error. -/
theorem parse_extension_case_sensitive :
    (∀ d : String, FormatType.parse ⟨d, some (ExtResult.utf8 "toml")⟩ =
      Except.ok FormatType.Toml) ∧
    (∀ d : String, FormatType.parse ⟨d, some (ExtResult.utf8 "yaml")⟩ =
      Except.ok FormatType.Yaml) ∧
    (∀ d : String, FormatType.parse ⟨d, some (ExtResult.utf8 "yml")⟩ =
      Except.ok FormatType.Yaml) ∧
    (∀ (d ext : String), ext ≠ "toml" → ext ≠ "yaml" → ext ≠ "yml" →
      FormatType.parse ⟨d, some (ExtResult.utf8 ext)⟩ =
        Except.error (LogMsg.unsupportedExtension d)) := by
  refine ⟨fun d => rfl, fun d => rfl, fun d => rfl,
    fun d ext h1 h2 h3 => ?_⟩
  simp [FormatType.parse, h1, h2, h3]

/-- C10 witness: the upper-case extension `TOML` and the mixed-case `Yml`
do not resolve and yield the unsupported-extension error. -/
theorem parse_extension_case_sensitive_witness :
    FormatType.parse ⟨"config.TOML", some (ExtResult.utf8 "TOML")⟩ =
      Except.error (LogMsg.unsupportedExtension "config.TOML") ∧
    FormatType.parse ⟨"ci.Yml", some (ExtResult.utf8 "Yml")⟩ =
      Except.error (LogMsg.unsupportedExtension "ci.Yml") :=
  ⟨parse_extension_case_sensitive.2.2.2 "config.TOML" "TOML"
      (by decide) (by decide) (by decide),
    parse_extension_case_sensitive.2.2.2 "ci.Yml" "Yml"
      (by decide) (by decide) (by decide)⟩
